import Mathlib

/-!
Verification of the StressLab load-testing engine (src/stress_lab.py).

The Python engine is shallowly embedded here:
time values are exact rationals, the network is an environment function
assigning each request of each batch either a transport error or a
response behaviour (header delay, status, body bytes, body-read delay),
and the event loop's cooperative scheduling is modelled by letting every
request of a batch start at the batch start instant and the batch join
at the latest finish instant.  Fallible Python code (exceptions) is
modelled with Except.
-/

namespace StressLab

/-- HTTP method accepted by the constructor (Literal GET or POST). -/
inductive Method where
  | GET
  | POST
deriving DecidableEq, Repr

/-- Constructor parameters of the StressLab class (stress_lab.py lines 17-49).
Dictionaries are modelled as association lists, floats as rationals. -/
structure Config where
  url : String
  method : Method
  headers : Option (List (String × String))
  json_data : Option (List (String × String))
  requests_per_second : Nat
  num_times : Nat
  wait_time : ℚ
  ttfb_only : Bool
deriving DecidableEq, Repr

/-- Behaviour of the transport for one issued request that does not fail:
delay until response headers arrive, HTTP status, body bytes, and the
extra delay incurred when the body is read. -/
structure RespBehavior where
  headerDelay : ℚ
  status : Nat
  body : List Nat
  readDelay : ℚ
deriving DecidableEq, Repr

/-- Result of the transport for one issued request: either a response or a
fatal transport-level error (connection refused, DNS failure, timeout). -/
inductive NetResult where
  | ok (r : RespBehavior)
  | transportError
deriving DecidableEq, Repr

/-- Whether a transport result is a response rather than an error. -/
def NetResult.isOk : NetResult → Bool
  | NetResult.ok _ => true
  | NetResult.transportError => false

/-- The dictionary returned by make_request (stress_lab.py lines 76-81). -/
structure Outcome where
  ttfb : ℚ
  status : Nat
  timestamp : ℚ
  response_size : Option Nat
deriving DecidableEq, Repr

/-- The stats accumulator / final snapshot of run_test
(stress_lab.py lines 87-113): ordered series for each outcome field, the
per-second response-count mapping (an insertion-ordered association list,
as a Python defaultdict), and the total duration filled in at run end. -/
structure Stats where
  ttfb : List ℚ
  status : List Nat
  timestamp : List ℚ
  response_size : List Nat
  responses_per_second : List (Int × Nat)
  total_duration : ℚ
deriving DecidableEq, Repr

/-- The accumulator as created at the start of run_test (line 87-88). -/
def emptyStats : Stats :=
  { ttfb := []
    status := []
    timestamp := []
    response_size := []
    responses_per_second := []
    total_duration := 0 }

/-- The keyword arguments built for session.request
(stress_lab.py lines 67-69): headers default to the empty dict when the
configured headers are None or empty (Python truthiness of
self.headers or so), and a json body is attached only when the method is
POST and json_data is truthy (non-None and non-empty). -/
structure RequestKwargs where
  headers : List (String × String)
  json : Option (List (String × String))
deriving DecidableEq, Repr

/-- Models lines 67-69 of make_request: kwargs construction. -/
def request_kwargs (cfg : Config) : RequestKwargs :=
  { headers :=
      match cfg.headers with
      | some h => if h.isEmpty then [] else h
      | none => []
    json :=
      match cfg.json_data with
      | some j =>
        if cfg.method = Method.POST then (if j.isEmpty then none else some j) else none
      | none => none }

/-- Wall-clock duration of one request as seen by the event loop: up to the
headers when ttfb_only, else up to the end of the body read
(stress_lab.py lines 71-74). -/
def requestDuration (cfg : Config) (r : RespBehavior) : ℚ :=
  if cfg.ttfb_only then r.headerDelay else r.headerDelay + r.readDelay

/-- Models make_request (stress_lab.py lines 51-81) on a transport result:
a transport error propagates (Except.error); otherwise the outcome dict is
returned together with the instant the coroutine finishes.  ttfb is the
interval from the request start to header arrival; the timestamp is taken
after the optional body read, relative to (start_timestamp or start) -
Python or falls back to the request's own start also when the supplied
reference is 0 (falsy); response_size is len(content) if content else
None, so an absent or empty body yields None. -/
def make_request (cfg : Config) (beh : NetResult) (start : ℚ)
    (start_timestamp : Option ℚ) : Except Unit (Outcome × ℚ) :=
  match beh with
  | NetResult.transportError => Except.error ()
  | NetResult.ok r =>
    let finish := start + requestDuration cfg r
    let content : Option (List Nat) := if cfg.ttfb_only then none else some r.body
    let ref : ℚ :=
      match start_timestamp with
      | some s => if s = 0 then start else s
      | none => start
    Except.ok
      ({ ttfb := r.headerDelay
         status := r.status
         timestamp := finish - ref
         response_size :=
           match content with
           | some c => if c.isEmpty then none else some c.length
           | none => none }, finish)

/-- Python int() applied to a float: truncation toward zero. -/
def pyInt (q : ℚ) : Int := if 0 ≤ q then ⌊q⌋ else -⌊-q⌋

/-- Increment the count stored under key k in a defaultdict(int) modelled
as an insertion-ordered association list (stress_lab.py line 108). -/
def bump (m : List (Int × Nat)) (k : Int) : List (Int × Nat) :=
  match m with
  | [] => [(k, 1)]
  | p :: rest => if p.1 = k then (p.1, p.2 + 1) :: rest else p :: bump rest k

/-- Sum of the counts of the responses_per_second mapping. -/
def sumValues (m : List (Int × Nat)) : Nat := (m.map Prod.snd).sum

/-- Models the per-result accumulation of run_test
(stress_lab.py lines 100-108): append ttfb, status and timestamp, append
the response size only when it is not None, and increment the
int(timestamp) bucket of responses_per_second. -/
def processOutcome (s : Stats) (o : Outcome) : Stats :=
  { s with
    ttfb := s.ttfb ++ [o.ttfb]
    status := s.status ++ [o.status]
    timestamp := s.timestamp ++ [o.timestamp]
    response_size :=
      match o.response_size with
      | some n => s.response_size ++ [n]
      | none => s.response_size
    responses_per_second := bump s.responses_per_second (pyInt o.timestamp) }

/-- Models the list of make_request coroutines of one batch together with
asyncio.gather (stress_lab.py lines 94-98): every request starts at the
batch start instant t; if any raises, the exception propagates. -/
def gatherReqs (cfg : Config) (beh : Nat → NetResult) (t : ℚ) (ref : Option ℚ) :
    List Nat → Except Unit (List (Outcome × ℚ))
  | [] => Except.ok []
  | j :: rest =>
    match make_request cfg (beh j) t ref with
    | Except.error e => Except.error e
    | Except.ok r =>
      match gatherReqs cfg beh t ref rest with
      | Except.error e => Except.error e
      | Except.ok rs => Except.ok (r :: rs)

/-- One loop iteration's fan-out and join: the gathered outcomes in task
order and the join instant (the latest finish, or t for an empty batch). -/
def runBatch (cfg : Config) (beh : Nat → NetResult) (t ref : ℚ) :
    Except Unit (List Outcome × ℚ) :=
  match gatherReqs cfg beh t (some ref) (List.range cfg.requests_per_second) with
  | Except.error e => Except.error e
  | Except.ok rs => Except.ok (rs.map Prod.fst, (rs.map Prod.snd).foldl max t)

/-- Models the batch loop of run_test (stress_lab.py lines 93-110): for
each batch index, gather the batch at the current instant, accumulate its
results in order, then sleep wait_time - the sleep runs after every batch,
the last one included. -/
def runLoop (cfg : Config) (env : Nat → Nat → NetResult) (ref : ℚ) :
    List Nat → Stats → ℚ → Except Unit (Stats × ℚ)
  | [], s, t => Except.ok (s, t)
  | i :: rest, s, t =>
    match runBatch cfg (env i) t ref with
    | Except.error e => Except.error e
    | Except.ok (outs, tJoin) =>
      runLoop cfg env ref rest (outs.foldl processOutcome s) (tJoin + cfg.wait_time)

/-- Models run_test (stress_lab.py lines 83-114): record the start
instant, drive num_times batches, then set total_duration to the interval
from the start instant to the instant after the last sleep. -/
def run_test (cfg : Config) (env : Nat → Nat → NetResult) (t0 : ℚ) :
    Except Unit Stats :=
  match runLoop cfg env t0 (List.range cfg.num_times) emptyStats t0 with
  | Except.error e => Except.error e
  | Except.ok (s, tEnd) => Except.ok { s with total_duration := tEnd - t0 }

/-- Models the assignment self.stats = stats at the end of run_test
(line 114): it runs only when no exception was raised, so on a transport
error self.stats keeps its previous value. -/
def runUpdateStats (pre : Option Stats) (r : Except Unit Stats) : Option Stats :=
  match r with
  | Except.ok s => some s
  | Except.error _ => pre

/-- No request of any batch of the run suffers a transport error. -/
def noErrors (cfg : Config) (env : Nat → Nat → NetResult) : Prop :=
  ∀ i < cfg.num_times, ∀ j < cfg.requests_per_second, (env i j).isOk = true

/-- Insert a value into an ascending list, keeping it ascending. -/
def insSorted (x : ℚ) : List ℚ → List ℚ
  | [] => [x]
  | y :: ys => if x ≤ y then x :: y :: ys else y :: insSorted x ys

/-- Ascending sort of a series, as performed internally by
statistics.median and numpy.percentile. -/
def sortAsc (xs : List ℚ) : List ℚ := xs.foldr insSorted []

/-- Zero-based indexing of a sorted series, as sorted[k] in Python; the
out-of-range default 0 is never reached at the indices the summarizer
uses on a non-empty series. -/
def nth (l : List ℚ) (n : Nat) : ℚ :=
  match l, n with
  | [], _ => 0
  | x :: _, 0 => x
  | _ :: xs, n+1 => nth xs n

/-- Models numpy.percentile with the default linear interpolation method
(stress_lab.py lines 178-180) on a non-empty series and p between 0 and
100: the virtual rank is r = p * (n - 1) / 100 and the value is
interpolated between the sorted values at positions floor r and
floor r + 1 with weight r - floor r (the weight is zero whenever
floor r + 1 would fall out of range). -/
def npPercentile (xs : List ℚ) (p : ℚ) : ℚ :=
  let s := sortAsc xs
  let n := s.length
  let r := p * ((n : ℚ) - 1) / 100
  let k := (⌊r⌋).toNat
  let g := r - (k : ℚ)
  nth s k + g * (nth s (k + 1) - nth s k)

/-- Models statistics.median (stress_lab.py line 177) on a non-empty
series: middle sorted value for odd length, mean of the two middle sorted
values for even length. -/
def medianOf (xs : List ℚ) : ℚ :=
  let s := sortAsc xs
  let n := s.length
  if n % 2 = 1 then nth s (n / 2)
  else (nth s (n / 2 - 1) + nth s (n / 2)) / 2

/-- Exceptions that the summary computation of plot_results can raise. -/
inductive PyErr where
  | statisticsError
  | valueError
  | indexError
  | zeroDivisionError
deriving DecidableEq, Repr

/-- Python float division: raises ZeroDivisionError on a zero divisor. -/
def pyDiv (a b : ℚ) : Except PyErr ℚ :=
  if b = 0 then Except.error PyErr.zeroDivisionError else Except.ok (a / b)

/-- statistics.mean: raises StatisticsError on an empty series. -/
def pyMean (xs : List ℚ) : Except PyErr ℚ :=
  match xs with
  | [] => Except.error PyErr.statisticsError
  | _ :: _ => Except.ok (xs.sum / (xs.length : ℚ))

/-- Python max over a list: raises ValueError on an empty series. -/
def pyMax (xs : List ℚ) : Except PyErr ℚ :=
  match xs with
  | [] => Except.error PyErr.valueError
  | x :: rest => Except.ok (rest.foldl max x)

/-- Python min over a list: raises ValueError on an empty series. -/
def pyMin (xs : List ℚ) : Except PyErr ℚ :=
  match xs with
  | [] => Except.error PyErr.valueError
  | x :: rest => Except.ok (rest.foldl min x)

/-- statistics.median: raises StatisticsError on an empty series. -/
def pyMedian (xs : List ℚ) : Except PyErr ℚ :=
  match xs with
  | [] => Except.error PyErr.statisticsError
  | _ :: _ => Except.ok (medianOf xs)

/-- numpy.percentile: raises an IndexError on an empty series. -/
def pyPercentile (xs : List ℚ) (p : ℚ) : Except PyErr ℚ :=
  match xs with
  | [] => Except.error PyErr.indexError
  | _ :: _ => Except.ok (npPercentile xs p)

/-- Total Success of the summary table (stress_lab.py line 171):
the number of statuses equal to exactly 200. -/
def totalSuccess (s : Stats) : Nat := s.status.count 200

/-- Total Failures of the summary table (stress_lab.py line 172):
the length of the ttfb series minus the success count. -/
def totalFailures (s : Stats) : Int :=
  (s.ttfb.length : Int) - (totalSuccess s : Int)

/-- Observable result of the summary part of plot_results: either the
early no-results report or the numeric values of the summary table. -/
inductive PlotResult where
  | noResults
  | table (total_duration : ℚ) (totalRequests : Nat) (success : Nat)
      (failures : Int) (rps : ℚ) (avg mx mn med p90 p95 p99 : ℚ)
deriving DecidableEq, Repr

/-- Models the summary computation of plot_results
(stress_lab.py lines 120-181): when self.stats is falsy, print a report
and return; otherwise compute the summary values in source order, where
an empty ttfb series makes statistics.mean raise StatisticsError (or the
requests-per-second division raise ZeroDivisionError first when
total_duration is zero) - an Except.error models the unhandled
exception. -/
def plot_results (stats : Option Stats) : Except PyErr PlotResult :=
  match stats with
  | none => Except.ok PlotResult.noResults
  | some s => do
    let rps ← pyDiv ((s.ttfb.length : ℚ)) s.total_duration
    let avg ← pyMean s.ttfb
    let mx ← pyMax s.ttfb
    let mn ← pyMin s.ttfb
    let med ← pyMedian s.ttfb
    let p90 ← pyPercentile s.ttfb 90
    let p95 ← pyPercentile s.ttfb 95
    let p99 ← pyPercentile s.ttfb 99
    Except.ok (PlotResult.table s.total_duration s.ttfb.length (totalSuccess s)
      (totalFailures s) rps avg mx mn med p90 p95 p99)

/-- Reduced form of the outcome returned by make_request on a successful
request (same value as make_request, convenient for stating lemmas). -/
def mkOutcome (cfg : Config) (r : RespBehavior) (start : ℚ)
    (start_timestamp : Option ℚ) : Outcome :=
  { ttfb := r.headerDelay
    status := r.status
    timestamp := (start + requestDuration cfg r) -
      (match start_timestamp with
       | some s => if s = 0 then start else s
       | none => start)
    response_size :=
      if cfg.ttfb_only then none
      else if r.body.isEmpty then none else some r.body.length }

/-- The TTFB series 0.1, 0.2, ..., 1.0 of the percentile scenario. -/
def ttfbSeries10 : List ℚ :=
  [1/10, 2/10, 3/10, 4/10, 5/10, 6/10, 7/10, 8/10, 9/10, 1]

/-- Configuration of the timing scenario: 2 requests per batch, 3 batches,
1 second between batches, TTFB only. -/
def cfgRun : Config :=
  { url := "http://localhost:8000"
    method := Method.GET
    headers := none
    json_data := none
    requests_per_second := 2
    num_times := 3
    wait_time := 1
    ttfb_only := true }

/-- A response arriving after 0.1 seconds with status 200. -/
def behTenth : RespBehavior :=
  { headerDelay := 1/10, status := 200, body := [], readDelay := 0 }

/-- A response arriving after 1 second with status 200. -/
def behUnit : RespBehavior :=
  { headerDelay := 1, status := 200, body := [], readDelay := 0 }

/-- A network where every request succeeds in 0.1 seconds. -/
def envTenth : Nat → Nat → NetResult := fun _ _ => NetResult.ok behTenth

/-- A network where the first request of the second batch (batch index 1)
is refused and every other request succeeds. -/
def envBatch2Fails : Nat → Nat → NetResult := fun i j =>
  if i = 1 ∧ j = 0 then NetResult.transportError else NetResult.ok behTenth

/-- A network where the very first request returns 200 and every other
request returns 201. -/
def envMixedStatus : Nat → Nat → NetResult := fun i j =>
  NetResult.ok
    { headerDelay := 1/10
      status := if i = 0 ∧ j = 0 then 200 else 201
      body := []
      readDelay := 0 }

/-- Configuration that reads response bodies: one request, one batch,
ttfb_only false. -/
def cfgBody : Config :=
  { url := "http://localhost:8000"
    method := Method.GET
    headers := none
    json_data := none
    requests_per_second := 1
    num_times := 1
    wait_time := 0
    ttfb_only := false }

/-- A network whose responses carry an empty body. -/
def envEmptyBody : Nat → Nat → NetResult := fun _ _ =>
  NetResult.ok { headerDelay := 1/10, status := 200, body := [], readDelay := 1/10 }

/-- A completed-looking stats snapshot whose collected series are empty
(as produced by a run with zero batches): positive wall-clock duration,
no outcomes. -/
def emptySeriesStats : Stats :=
  { ttfb := []
    status := []
    timestamp := []
    response_size := []
    responses_per_second := []
    total_duration := 1 }

/-- The outcome of a request started at instant 5 with reference 3 under
behUnit. -/
def outcRef3 : Outcome :=
  { ttfb := 1, status := 200, timestamp := 3, response_size := none }


/-! ### Helper lemmas -/

theorem make_request_ok (cfg : Config) (r : RespBehavior) (start : ℚ)
    (st : Option ℚ) :
    make_request cfg (NetResult.ok r) start st =
      Except.ok (mkOutcome cfg r start st, start + requestDuration cfg r) := by
  cases h : cfg.ttfb_only <;> simp [make_request, mkOutcome, h]

theorem sumValues_bump (m : List (Int × Nat)) (k : Int) :
    sumValues (bump m k) = sumValues m + 1 := by
  induction m with
  | nil => simp [bump, sumValues]
  | cons p rest ih =>
    by_cases h : p.1 = k
    · simp [bump, h, sumValues]; omega
    · simp [bump, h, sumValues] at ih ⊢; omega

theorem foldl_ttfb_length (outs : List Outcome) : ∀ s : Stats,
    (outs.foldl processOutcome s).ttfb.length = s.ttfb.length + outs.length := by
  induction outs with
  | nil => intro s; simp
  | cons o rest ih =>
    intro s
    rw [List.foldl_cons, ih (processOutcome s o)]
    simp [processOutcome]; omega

theorem foldl_status_length (outs : List Outcome) : ∀ s : Stats,
    (outs.foldl processOutcome s).status.length = s.status.length + outs.length := by
  induction outs with
  | nil => intro s; simp
  | cons o rest ih =>
    intro s
    rw [List.foldl_cons, ih (processOutcome s o)]
    simp [processOutcome]; omega

theorem foldl_timestamp_length (outs : List Outcome) : ∀ s : Stats,
    (outs.foldl processOutcome s).timestamp.length = s.timestamp.length + outs.length := by
  induction outs with
  | nil => intro s; simp
  | cons o rest ih =>
    intro s
    rw [List.foldl_cons, ih (processOutcome s o)]
    simp [processOutcome]; omega

theorem foldl_sumValues (outs : List Outcome) : ∀ s : Stats,
    sumValues (outs.foldl processOutcome s).responses_per_second =
      sumValues s.responses_per_second + outs.length := by
  induction outs with
  | nil => intro s; simp
  | cons o rest ih =>
    intro s
    rw [List.foldl_cons, ih (processOutcome s o)]
    simp [processOutcome, sumValues_bump]; omega

theorem foldl_response_size_none (outs : List Outcome) : ∀ s : Stats,
    (∀ o ∈ outs, o.response_size = none) →
    (outs.foldl processOutcome s).response_size = s.response_size := by
  induction outs with
  | nil => intro s _; simp
  | cons o rest ih =>
    intro s h
    rw [List.foldl_cons, ih (processOutcome s o) (fun x hx => h x (by simp [hx]))]
    simp [processOutcome, h o (by simp)]

theorem foldl_total_duration (outs : List Outcome) : ∀ s : Stats,
    (outs.foldl processOutcome s).total_duration = s.total_duration := by
  induction outs with
  | nil => intro s; simp
  | cons o rest ih =>
    intro s
    rw [List.foldl_cons, ih (processOutcome s o)]
    simp [processOutcome]

theorem gatherReqs_ok (cfg : Config) (beh : Nat → NetResult) (t : ℚ) (ref : Option ℚ) :
    ∀ js : List Nat, (∀ j ∈ js, (beh j).isOk = true) →
    ∃ rs, gatherReqs cfg beh t ref js = Except.ok rs ∧
      rs.length = js.length ∧
      (∀ pr ∈ rs, ∃ j ∈ js, ∃ r, beh j = NetResult.ok r ∧
        pr = (mkOutcome cfg r t ref, t + requestDuration cfg r)) := by
  intro js
  induction js with
  | nil => exact fun _ => ⟨[], rfl, rfl, by intro pr h; cases h⟩
  | cons j rest ih =>
    intro h
    have hj := h j (by simp)
    obtain ⟨rs, hrs, hlen, hmem⟩ := ih (fun x hx => h x (by simp [hx]))
    cases hb : beh j with
    | transportError => rw [hb] at hj; simp [NetResult.isOk] at hj
    | ok r =>
      refine ⟨(mkOutcome cfg r t ref, t + requestDuration cfg r) :: rs, ?_, by simp [hlen], ?_⟩
      · simp [gatherReqs, hb, make_request_ok, hrs]
      · intro pr hpr
        rcases List.mem_cons.mp hpr with hpr | hpr
        · exact ⟨j, by simp, r, hb, hpr⟩
        · obtain ⟨j', hj', r', hb', hpr'⟩ := hmem pr hpr
          exact ⟨j', by simp [hj'], r', hb', hpr'⟩

theorem gatherReqs_error (cfg : Config) (beh : Nat → NetResult) (t : ℚ) (ref : Option ℚ) :
    ∀ js : List Nat, (∃ j ∈ js, beh j = NetResult.transportError) →
    gatherReqs cfg beh t ref js = Except.error () := by
  intro js
  induction js with
  | nil => rintro ⟨j, hj, _⟩; cases hj
  | cons j rest ih =>
    rintro ⟨j', hj', herr⟩
    rcases List.mem_cons.mp hj' with rfl | hj'
    · simp [gatherReqs, herr, make_request]
    · cases hb : beh j with
      | transportError => simp [gatherReqs, hb, make_request]
      | ok r =>
        simp [gatherReqs, hb, make_request_ok, ih ⟨j', hj', herr⟩]

theorem runBatch_ok (cfg : Config) (beh : Nat → NetResult) (t ref : ℚ)
    (h : ∀ j < cfg.requests_per_second, (beh j).isOk = true) :
    ∃ outs tJoin, runBatch cfg beh t ref = Except.ok (outs, tJoin) ∧
      outs.length = cfg.requests_per_second ∧
      (∀ o ∈ outs, ∃ j < cfg.requests_per_second, ∃ r, beh j = NetResult.ok r ∧
        o = mkOutcome cfg r t (some ref)) := by
  obtain ⟨rs, hrs, hlen, hmem⟩ := gatherReqs_ok cfg beh t (some ref)
    (List.range cfg.requests_per_second)
    (fun j hj => h j (List.mem_range.mp hj))
  refine ⟨rs.map Prod.fst, (rs.map Prod.snd).foldl max t, ?_, by simp [hlen], ?_⟩
  · simp [runBatch, hrs]
  · intro o ho
    obtain ⟨pr, hpr, rfl⟩ := List.mem_map.mp ho
    obtain ⟨j, hj, r, hb, rfl⟩ := hmem pr hpr
    exact ⟨j, List.mem_range.mp hj, r, hb, rfl⟩

theorem runBatch_error (cfg : Config) (beh : Nat → NetResult) (t ref : ℚ)
    (h : ∃ j < cfg.requests_per_second, beh j = NetResult.transportError) :
    runBatch cfg beh t ref = Except.error () := by
  obtain ⟨j, hj, herr⟩ := h
  have := gatherReqs_error cfg beh t (some ref) (List.range cfg.requests_per_second)
    ⟨j, List.mem_range.mpr hj, herr⟩
  simp [runBatch, this]

theorem runLoop_ok (cfg : Config) (env : Nat → Nat → NetResult) (ref : ℚ) :
    ∀ (bs : List Nat) (s : Stats) (t : ℚ),
    (∀ b ∈ bs, ∀ j < cfg.requests_per_second, (env b j).isOk = true) →
    ∃ s2 t2, runLoop cfg env ref bs s t = Except.ok (s2, t2) ∧
      s2.ttfb.length = s.ttfb.length + bs.length * cfg.requests_per_second ∧
      s2.status.length = s.status.length + bs.length * cfg.requests_per_second ∧
      s2.timestamp.length = s.timestamp.length + bs.length * cfg.requests_per_second ∧
      sumValues s2.responses_per_second =
        sumValues s.responses_per_second + bs.length * cfg.requests_per_second ∧
      (cfg.ttfb_only = true → s2.response_size = s.response_size) ∧
      s2.total_duration = s.total_duration := by
  intro bs
  induction bs with
  | nil => intro s t _; exact ⟨s, t, rfl, by simp, by simp, by simp, by simp, fun _ => rfl, rfl⟩
  | cons b rest ih =>
    intro s t h
    obtain ⟨outs, tJoin, hbatch, hlen, hmem⟩ :=
      runBatch_ok cfg (env b) t ref (fun j hj => h b (by simp) j hj)
    obtain ⟨s2, t2, hloop, h1, h2, h3, h4, h5, h6⟩ :=
      ih (outs.foldl processOutcome s) (tJoin + cfg.wait_time)
        (fun x hx => h x (by simp [hx]))
    refine ⟨s2, t2, ?_, ?_, ?_, ?_, ?_, ?_, ?_⟩
    · simp [runLoop, hbatch, hloop]
    · rw [h1, foldl_ttfb_length]; simp [hlen]; ring
    · rw [h2, foldl_status_length]; simp [hlen]; ring
    · rw [h3, foldl_timestamp_length]; simp [hlen]; ring
    · rw [h4, foldl_sumValues]; simp [hlen]; ring
    · intro ht
      rw [h5 ht, foldl_response_size_none]
      intro o ho
      obtain ⟨j, hj, r, hb, rfl⟩ := hmem o ho
      simp [mkOutcome, ht]
    · rw [h6, foldl_total_duration]

theorem runLoop_error (cfg : Config) (env : Nat → Nat → NetResult) (ref : ℚ) :
    ∀ (bs : List Nat) (s : Stats) (t : ℚ),
    (∃ b ∈ bs, ∃ j < cfg.requests_per_second, env b j = NetResult.transportError) →
    runLoop cfg env ref bs s t = Except.error () := by
  intro bs
  induction bs with
  | nil => rintro s t ⟨b, hb, _⟩; cases hb
  | cons b rest ih =>
    rintro s t ⟨b', hb', herr⟩
    by_cases hfirst : ∃ j < cfg.requests_per_second, env b j = NetResult.transportError
    · simp [runLoop, runBatch_error cfg (env b) t ref hfirst]
    · rcases List.mem_cons.mp hb' with rfl | hb'
      · exact absurd herr hfirst
      · have hok : ∀ j < cfg.requests_per_second, (env b j).isOk = true := by
          intro j hj
          cases hb2 : env b j with
          | ok r => rfl
          | transportError => exact absurd ⟨j, hj, hb2⟩ hfirst
        obtain ⟨outs, tJoin, hbatch, _⟩ := runBatch_ok cfg (env b) t ref hok
        simp [runLoop, hbatch, ih _ _ ⟨b', hb', herr⟩]

theorem run_test_ok (cfg : Config) (env : Nat → Nat → NetResult) (t0 : ℚ)
    (h : noErrors cfg env) :
    ∃ s, run_test cfg env t0 = Except.ok s ∧
      s.ttfb.length = cfg.num_times * cfg.requests_per_second ∧
      s.status.length = cfg.num_times * cfg.requests_per_second ∧
      s.timestamp.length = cfg.num_times * cfg.requests_per_second ∧
      sumValues s.responses_per_second = cfg.num_times * cfg.requests_per_second ∧
      (cfg.ttfb_only = true → s.response_size = []) := by
  obtain ⟨s2, t2, hloop, h1, h2, h3, h4, h5, h6⟩ :=
    runLoop_ok cfg env t0 (List.range cfg.num_times) emptyStats t0
      (fun b hb => h b (List.mem_range.mp hb))
  refine ⟨{ s2 with total_duration := t2 - t0 }, ?_, ?_, ?_, ?_, ?_, ?_⟩
  · simp [run_test, hloop]
  · simpa [emptyStats] using h1
  · simpa [emptyStats] using h2
  · simpa [emptyStats] using h3
  · simpa [emptyStats, sumValues] using h4
  · intro ht; simpa [emptyStats] using h5 ht

theorem run_test_error (cfg : Config) (env : Nat → Nat → NetResult) (t0 : ℚ)
    (i j : Nat) (hi : i < cfg.num_times) (hj : j < cfg.requests_per_second)
    (herr : env i j = NetResult.transportError) :
    run_test cfg env t0 = Except.error () := by
  have := runLoop_error cfg env t0 (List.range cfg.num_times) emptyStats t0
    ⟨i, List.mem_range.mpr hi, j, hj, herr⟩
  simp [run_test, this]

theorem foldl_max_le (v : ℚ) : ∀ l : List ℚ, (∀ x ∈ l, x ≤ v) → l.foldl max v = v := by
  intro l
  induction l with
  | nil => intro _; rfl
  | cons x rest ih =>
    intro h
    rw [List.foldl_cons, max_eq_left (h x (by simp))]
    exact ih fun y hy => h y (by simp [hy])

theorem foldl_max_all_eq (v t : ℚ) (hv : t ≤ v) :
    ∀ l : List ℚ, l ≠ [] → (∀ x ∈ l, x = v) → l.foldl max t = v := by
  intro l
  cases l with
  | nil => intro h; exact absurd rfl h
  | cons x rest =>
    intro _ h
    rw [List.foldl_cons, h x (by simp), max_eq_right hv]
    exact foldl_max_le v rest fun y hy => le_of_eq (h y (by simp [hy]))

theorem runBatch_uniform (cfg : Config) (beh : Nat → NetResult) (t ref : ℚ)
    (r0 : RespBehavior)
    (hbeh : ∀ j < cfg.requests_per_second, beh j = NetResult.ok r0)
    (hrps : 1 ≤ cfg.requests_per_second) (hd : 0 ≤ requestDuration cfg r0) :
    ∃ outs, runBatch cfg beh t ref =
      Except.ok (outs, t + requestDuration cfg r0) := by
  obtain ⟨rs, hrs, hlen, hmem⟩ := gatherReqs_ok cfg beh t (some ref)
    (List.range cfg.requests_per_second)
    (fun j hj => by rw [hbeh j (List.mem_range.mp hj)]; rfl)
  refine ⟨rs.map Prod.fst, ?_⟩
  have hall : ∀ x ∈ rs.map Prod.snd, x = t + requestDuration cfg r0 := by
    intro x hx
    obtain ⟨pr, hpr, rfl⟩ := List.mem_map.mp hx
    obtain ⟨j, hj, r, hb, rfl⟩ := hmem pr hpr
    rw [hbeh j (List.mem_range.mp hj)] at hb
    cases hb
    rfl
  have hne : rs.map Prod.snd ≠ [] := by
    intro hcon
    have := congrArg List.length hcon
    simp [hlen] at this
    omega
  simp only [runBatch, hrs]
  rw [foldl_max_all_eq (t + requestDuration cfg r0) t (by linarith) _ hne hall]

theorem runLoop_uniform (cfg : Config) (env : Nat → Nat → NetResult) (ref : ℚ)
    (r0 : RespBehavior)
    (hrps : 1 ≤ cfg.requests_per_second) (hd : 0 ≤ requestDuration cfg r0) :
    ∀ (bs : List Nat) (s : Stats) (t : ℚ),
    (∀ b ∈ bs, ∀ j < cfg.requests_per_second, env b j = NetResult.ok r0) →
    ∃ s2, runLoop cfg env ref bs s t =
      Except.ok (s2, t + bs.length * (requestDuration cfg r0 + cfg.wait_time)) := by
  intro bs
  induction bs with
  | nil => intro s t _; exact ⟨s, by simp [runLoop]⟩
  | cons b rest ih =>
    intro s t h
    obtain ⟨outs, hbatch⟩ := runBatch_uniform cfg (env b) t ref r0
      (fun j hj => h b (by simp) j hj) hrps hd
    obtain ⟨s2, hloop⟩ := ih (outs.foldl processOutcome s)
      (t + requestDuration cfg r0 + cfg.wait_time) (fun x hx => h x (by simp [hx]))
    refine ⟨s2, ?_⟩
    simp only [runLoop, hbatch]
    rw [hloop]
    congr 2
    push_cast [List.length_cons]
    ring

theorem run_test_uniform (cfg : Config) (env : Nat → Nat → NetResult) (t0 : ℚ)
    (r0 : RespBehavior)
    (henv : ∀ i < cfg.num_times, ∀ j < cfg.requests_per_second,
      env i j = NetResult.ok r0)
    (hrps : 1 ≤ cfg.requests_per_second) (hd : 0 ≤ requestDuration cfg r0) :
    ∃ s, run_test cfg env t0 = Except.ok s ∧
      s.total_duration =
        cfg.num_times * (requestDuration cfg r0 + cfg.wait_time) := by
  obtain ⟨s2, hloop⟩ := runLoop_uniform cfg env t0 r0 hrps hd
    (List.range cfg.num_times) emptyStats t0
    (fun b hb => henv b (List.mem_range.mp hb))
  refine ⟨{ s2 with total_duration :=
    t0 + ((List.range cfg.num_times).length : ℚ) * (requestDuration cfg r0 + cfg.wait_time) - t0 }, ?_, ?_⟩
  · simp only [run_test, hloop]
  · push_cast [List.length_range]
    ring

theorem length_insSorted (x : ℚ) : ∀ l : List ℚ, (insSorted x l).length = l.length + 1 := by
  intro l
  induction l with
  | nil => rfl
  | cons y ys ih =>
    by_cases h : x ≤ y
    · simp [insSorted, h]
    · simp [insSorted, h, ih]

theorem length_sortAsc (xs : List ℚ) : (sortAsc xs).length = xs.length := by
  induction xs with
  | nil => rfl
  | cons x rest ih =>
    simp only [sortAsc, List.foldr_cons] at ih ⊢
    rw [length_insSorted, ih, List.length_cons]

theorem npPercentile50_eq_median (xs : List ℚ) (h : xs ≠ []) :
    npPercentile xs 50 = medianOf xs := by
  simp only [npPercentile, medianOf]
  set s := sortAsc xs with hs
  have hn : s.length ≠ 0 := by
    rw [hs, length_sortAsc]
    exact fun hc => h (List.eq_nil_of_length_eq_zero hc)
  set n := s.length with hndef
  rcases Nat.even_or_odd n with he | ho
  · obtain ⟨m, hm⟩ : ∃ m, n = 2*m + 2 := by
      obtain ⟨a, ha⟩ := he
      exact ⟨a - 1, by omega⟩
    rw [hm]
    have h50 : (50 : ℚ) * ((((2*m+2 : Nat)) : ℚ) - 1) / 100 = (m : ℚ) + 1/2 := by
      push_cast; ring
    rw [h50]
    have hfloor : ⌊(m : ℚ) + 1/2⌋ = (m : Int) := by
      rw [Int.floor_eq_iff]
      constructor
      · simp
      · push_cast; linarith
    rw [hfloor, Int.toNat_natCast]
    rw [if_neg (by omega : ¬ (2*m+2) % 2 = 1)]
    have hd1 : (2*m+2)/2 = m + 1 := by omega
    have hd2 : (2*m+2)/2 - 1 = m := by omega
    rw [hd2, hd1]
    ring
  · obtain ⟨m, hm⟩ := ho
    rw [hm]
    have h50 : (50 : ℚ) * ((((2*m+1 : Nat)) : ℚ) - 1) / 100 = (m : ℚ) := by
      push_cast; ring
    rw [h50]
    rw [Int.floor_natCast, Int.toNat_natCast]
    rw [if_pos (by omega : (2*m+1) % 2 = 1)]
    have hd1 : (2*m+1)/2 = m := by omega
    rw [hd1]
    ring


/-! ### Claim theorems -/

/-- C1: for every run with batch size and batch count at least 1 in which
no request raises a transport error, the snapshot exists and the ttfb,
status and timestamp series each hold exactly
batch_size * batch_count outcomes. -/
theorem claim1_outcome_count (cfg : Config) (env : Nat → Nat → NetResult) (t0 : ℚ)
    (_hb : 1 ≤ cfg.requests_per_second) (_hn : 1 ≤ cfg.num_times)
    (h : noErrors cfg env) :
    ∃ s, run_test cfg env t0 = Except.ok s ∧
      s.ttfb.length = cfg.requests_per_second * cfg.num_times ∧
      s.status.length = cfg.requests_per_second * cfg.num_times ∧
      s.timestamp.length = cfg.requests_per_second * cfg.num_times := by
  obtain ⟨s, hrun, h1, h2, h3, _, _⟩ := run_test_ok cfg env t0 h
  exact ⟨s, hrun, by rw [h1, Nat.mul_comm], by rw [h2, Nat.mul_comm],
    by rw [h3, Nat.mul_comm]⟩

/-- C1 witness: the 2-by-3 scenario run evaluates and has 6 outcomes. -/
theorem claim1_witness :
    ∃ s, run_test cfgRun envTenth 0 = Except.ok s ∧
      s.ttfb.length = cfgRun.requests_per_second * cfgRun.num_times ∧
      s.status.length = cfgRun.requests_per_second * cfgRun.num_times ∧
      s.timestamp.length = cfgRun.requests_per_second * cfgRun.num_times :=
  claim1_outcome_count cfgRun envTenth 0 (by decide) (by decide)
    (fun _ _ _ _ => rfl)

/-- C2: if some request of some batch raises a transport error, the error
propagates out of run_test uncaught, self.stats keeps its pre-run value,
and the result is the same error for every network agreeing with this one
up to the failing batch - the behaviour of all later batches is never
consulted, so no batch after the failing one starts. -/
theorem claim2_transport_error (cfg : Config) (env : Nat → Nat → NetResult)
    (t0 : ℚ) (pre : Option Stats) (i j : Nat)
    (hi : i < cfg.num_times) (hj : j < cfg.requests_per_second)
    (herr : env i j = NetResult.transportError) :
    run_test cfg env t0 = Except.error () ∧
    runUpdateStats pre (run_test cfg env t0) = pre ∧
    (∀ env2 : Nat → Nat → NetResult,
      (∀ b ≤ i, ∀ k < cfg.requests_per_second, env2 b k = env b k) →
      run_test cfg env2 t0 = Except.error ()) := by
  have h1 := run_test_error cfg env t0 i j hi hj herr
  refine ⟨h1, by rw [h1]; rfl, ?_⟩
  intro env2 hagree
  exact run_test_error cfg env2 t0 i j hi hj (by rw [hagree i le_rfl j hj, herr])

/-- C2 witness: a connection refusal in batch 1 of the 3-batch scenario
aborts the run with no snapshot. -/
theorem claim2_witness :
    run_test cfgRun envBatch2Fails 0 = Except.error () ∧
    runUpdateStats none (run_test cfgRun envBatch2Fails 0) = none ∧
    (∀ env2 : Nat → Nat → NetResult,
      (∀ b ≤ 1, ∀ k < cfgRun.requests_per_second, env2 b k = envBatch2Fails b k) →
      run_test cfgRun env2 0 = Except.error ()) :=
  claim2_transport_error cfgRun envBatch2Fails 0 none 1 0 (by decide) (by decide) rfl

/-- C6: in every completed snapshot the values of responses_per_second sum
to the number of outcomes; each accumulation bumps exactly one bucket by
one, and on the nonnegative elapsed times of a run the Python int() bucket
key is the integer floor. -/
theorem claim6_bucket_sum (cfg : Config) (env : Nat → Nat → NetResult) (t0 : ℚ)
    (h : noErrors cfg env) :
    (∃ s, run_test cfg env t0 = Except.ok s ∧
      sumValues s.responses_per_second = s.ttfb.length) ∧
    (∀ m k, sumValues (bump m k) = sumValues m + 1) ∧
    (∀ q : ℚ, 0 ≤ q → pyInt q = ⌊q⌋) := by
  obtain ⟨s, hrun, h1, _, _, h4, _⟩ := run_test_ok cfg env t0 h
  exact ⟨⟨s, hrun, by rw [h4, h1]⟩, sumValues_bump, fun q hq => by simp [pyInt, hq]⟩

/-- C6 witness: the bucket sums hold on the 2-by-3 scenario run. -/
theorem claim6_witness :
    (∃ s, run_test cfgRun envTenth 0 = Except.ok s ∧
      sumValues s.responses_per_second = s.ttfb.length) ∧
    (∀ m k, sumValues (bump m k) = sumValues m + 1) ∧
    (∀ q : ℚ, 0 ≤ q → pyInt q = ⌊q⌋) :=
  claim6_bucket_sum cfgRun envTenth 0 (fun _ _ _ _ => rfl)

/-- C3 counterexample: in the scenario batch_size=2, batch_count=3,
delay=1s, every request taking 0.1s, run_test records
total_duration = 3.3s - the sleep after the third batch is included - and
not the 2.3s the claim states. -/
theorem claim3_counterexample :
    (run_test cfgRun envTenth 0).map Stats.total_duration = Except.ok (33/10) ∧
    (33/10 : ℚ) ≠ 23/10 := by
  constructor
  · norm_num [run_test, runLoop, runBatch, gatherReqs, make_request, requestDuration,
      processOutcome, bump, pyInt, emptyStats, cfgRun, envTenth, behTenth,
      List.range_succ, Except.map]
  · norm_num

/-- C3 amended: total_duration is the interval from just before the first
batch to after the sleep that follows the last batch, so it includes one
inter-batch delay per batch, the final batch included: with every request
taking the same time d, total_duration = batch_count * (d + delay). -/
theorem claim3_total_duration_amended (cfg : Config) (env : Nat → Nat → NetResult)
    (t0 : ℚ) (r0 : RespBehavior)
    (henv : ∀ i < cfg.num_times, ∀ j < cfg.requests_per_second,
      env i j = NetResult.ok r0)
    (hrps : 1 ≤ cfg.requests_per_second) (hd : 0 ≤ requestDuration cfg r0) :
    ∃ s, run_test cfg env t0 = Except.ok s ∧
      s.total_duration =
        cfg.num_times * (requestDuration cfg r0 + cfg.wait_time) :=
  run_test_uniform cfg env t0 r0 henv hrps hd

/-- C3 witness: the amended duration formula instantiated on the 2-by-3
scenario with 0.1s requests and 1s delay. -/
theorem claim3_witness :
    ∃ s, run_test cfgRun envTenth 0 = Except.ok s ∧
      s.total_duration =
        cfgRun.num_times * (requestDuration cfgRun behTenth + cfgRun.wait_time) :=
  claim3_total_duration_amended cfgRun envTenth 0 behTenth
    (fun _ _ _ _ => rfl) (by decide)
    (by norm_num [requestDuration, cfgRun, behTenth])

/-- C4: percentiles of the TTFB series use linear interpolation between
ranks: for the series 0.1, 0.2, ..., 1.0 the 90th percentile is 0.91, and
for every non-empty series the 50th percentile equals the independently
computed median exactly. -/
theorem claim4_percentile (xs : List ℚ) (h : xs ≠ []) :
    npPercentile ttfbSeries10 90 = 91/100 ∧
    npPercentile xs 50 = medianOf xs := by
  constructor
  · norm_num [npPercentile, sortAsc, insSorted, nth, ttfbSeries10]
    simp
    norm_num
  · exact npPercentile50_eq_median xs h

/-- C4 witness: the percentile facts instantiated on a two-element
series. -/
theorem claim4_witness :
    ([1, 2] : List ℚ) ≠ [] ∧
    (npPercentile ttfbSeries10 90 = 91/100 ∧
      npPercentile [(1 : ℚ), 2] 50 = medianOf [(1 : ℚ), 2]) :=
  ⟨by simp, claim4_percentile [1, 2] (by simp)⟩

/-- Counting 200 in a status series is the length of the filtered series
of statuses equal to 200. -/
theorem count200_eq_filter (l : List Nat) :
    l.count 200 = (l.filter (fun c => c == 200)).length := by
  induction l with
  | nil => rfl
  | cons x rest ih =>
    by_cases hx : x = 200
    · simp [List.count_cons, List.filter_cons, hx, ih]
    · simp [List.count_cons, List.filter_cons, hx, ih]

/-- C5: in every completed snapshot the summary success count is the
number of outcomes whose status is exactly 200 (a 201 is not matched by
the filter), and the failure count is the total outcome count minus the
success count. -/
theorem claim5_success_failure (cfg : Config) (env : Nat → Nat → NetResult)
    (t0 : ℚ) (h : noErrors cfg env) :
    ∃ s, run_test cfg env t0 = Except.ok s ∧
      totalSuccess s = (s.status.filter (fun c => c == 200)).length ∧
      totalFailures s = (s.status.length : Int) - (totalSuccess s : Int) := by
  obtain ⟨s, hrun, h1, h2, _, _, _⟩ := run_test_ok cfg env t0 h
  refine ⟨s, hrun, ?_, ?_⟩
  · rw [totalSuccess, count200_eq_filter]
  · rw [totalFailures, h1, h2]

/-- C5 witness: the success and failure counts on a run whose statuses mix
200 and 201. -/
theorem claim5_witness :
    ∃ s, run_test cfgRun envMixedStatus 0 = Except.ok s ∧
      totalSuccess s = (s.status.filter (fun c => c == 200)).length ∧
      totalFailures s = (s.status.length : Int) - (totalSuccess s : Int) :=
  claim5_success_failure cfgRun envMixedStatus 0 (fun _ _ _ _ => rfl)

/-- C7 counterexample: with ttfb_only false, a run whose single response
has an empty body produces one outcome but an empty response_size series,
so not every outcome carries a response size. -/
theorem claim7_counterexample :
    cfgBody.ttfb_only = false ∧
    (run_test cfgBody envEmptyBody 0).map
      (fun s => (s.ttfb.length, s.response_size.length)) = Except.ok (1, 0) := by
  constructor
  · rfl
  · norm_num [run_test, runLoop, runBatch, gatherReqs, make_request, requestDuration,
      processOutcome, bump, pyInt, emptyStats, cfgBody, envEmptyBody,
      List.range_succ, Except.map]

/-- C7 amended: if ttfb_only is true no outcome of a completed snapshot
carries a response size; if ttfb_only is false an outcome carries a
response size exactly when its response body is non-empty (an empty body
is falsy in Python, so len(content) if content yields None for it). -/
theorem claim7_response_size_amended (cfg : Config) (env : Nat → Nat → NetResult)
    (t0 : ℚ) (h : noErrors cfg env) :
    (cfg.ttfb_only = true →
      ∃ s, run_test cfg env t0 = Except.ok s ∧ s.response_size = []) ∧
    (∀ (r : RespBehavior) (start : ℚ) (ref : Option ℚ) (o : Outcome) (tFin : ℚ),
      cfg.ttfb_only = false →
      make_request cfg (NetResult.ok r) start ref = Except.ok (o, tFin) →
      o.response_size = (if r.body.isEmpty then none else some r.body.length)) := by
  constructor
  · intro ht
    obtain ⟨s, hrun, _, _, _, _, h6⟩ := run_test_ok cfg env t0 h
    exact ⟨s, hrun, h6 ht⟩
  · intro r start ref o tFin hf hmk
    rw [make_request_ok] at hmk
    have ho : mkOutcome cfg r start ref = o := by
      have := congrArg (fun x => match x with
        | Except.ok (p : Outcome × ℚ) => p.1
        | Except.error _ => o) hmk
      simpa using this
    rw [← ho]
    simp [mkOutcome, hf]

/-- C7 witness: the amended response-size facts on the ttfb-only scenario
run. -/
theorem claim7_witness :
    (cfgRun.ttfb_only = true →
      ∃ s, run_test cfgRun envTenth 0 = Except.ok s ∧ s.response_size = []) ∧
    (∀ (r : RespBehavior) (start : ℚ) (ref : Option ℚ) (o : Outcome) (tFin : ℚ),
      cfgRun.ttfb_only = false →
      make_request cfgRun (NetResult.ok r) start ref = Except.ok (o, tFin) →
      o.response_size = (if r.body.isEmpty then none else some r.body.length)) :=
  claim7_response_size_amended cfgRun envTenth 0 (fun _ _ _ _ => rfl)

/-- C8 counterexample: a snapshot with an empty TTFB series and positive
total duration passes the falsy-stats guard of plot_results and makes
statistics.mean raise an unhandled StatisticsError instead of producing a
report. -/
theorem claim8_counterexample :
    plot_results (some emptySeriesStats) = Except.error PyErr.statisticsError := by
  norm_num [plot_results, emptySeriesStats, pyDiv, pyMean,
    Except.instMonad, Except.bind, Bind.bind]

/-- C8 amended: plot_results reports (prints and returns) only when
self.stats is unset, as after a transport-aborted run; when a snapshot
exists whose TTFB series is empty, summarization raises an unhandled
exception - ZeroDivisionError when total_duration is zero, else
StatisticsError from statistics.mean. -/
theorem claim8_empty_series_amended (s : Stats) (h : s.ttfb = []) :
    plot_results none = Except.ok PlotResult.noResults ∧
    plot_results (some s) = Except.error
      (if s.total_duration = 0 then PyErr.zeroDivisionError
       else PyErr.statisticsError) := by
  refine ⟨rfl, ?_⟩
  by_cases hz : s.total_duration = 0
  · simp [plot_results, pyDiv, hz, h, Except.instMonad, Except.bind, Bind.bind]
  · simp [plot_results, pyDiv, hz, h, pyMean, Except.instMonad, Except.bind, Bind.bind]

/-- C8 witness: the amended behaviour at the empty-series snapshot. -/
theorem claim8_witness :
    plot_results none = Except.ok PlotResult.noResults ∧
    plot_results (some emptySeriesStats) = Except.error
      (if emptySeriesStats.total_duration = 0 then PyErr.zeroDivisionError
       else PyErr.statisticsError) :=
  claim8_empty_series_amended emptySeriesStats rfl

/-- C9 counterexample: a request started at instant 5 with the supplied
reference 0 records timestamp 1 (relative to its own start), not the 6
that measuring against the supplied reference would give: Python
start_timestamp or start discards a falsy reference. -/
theorem claim9_counterexample :
    make_request cfgRun (NetResult.ok behUnit) 5 (some 0) =
      Except.ok ({ ttfb := 1, status := 200, timestamp := 1, response_size := none }, 6) ∧
    (1 : ℚ) ≠ 6 - 0 := by
  constructor
  · norm_num [make_request, requestDuration, cfgRun, behUnit]
  · norm_num

/-- C9 amended: the outcome timestamp is measured against the supplied
reference whenever it is provided and non-zero, and against the request
own start when the reference is absent or zero (falsy). -/
theorem claim9_timestamp_amended (cfg : Config) (r : RespBehavior) (start : ℚ)
    (st : Option ℚ) (o : Outcome) (tFin : ℚ)
    (hmk : make_request cfg (NetResult.ok r) start st = Except.ok (o, tFin)) :
    (∀ sref : ℚ, st = some sref → sref ≠ 0 → o.timestamp = tFin - sref) ∧
    ((st = some 0 ∨ st = none) → o.timestamp = tFin - start) := by
  rw [make_request_ok] at hmk
  have ho : mkOutcome cfg r start st = o := by
    have := congrArg (fun x => match x with
      | Except.ok (p : Outcome × ℚ) => p.1
      | Except.error _ => o) hmk
    simpa using this
  have ht : start + requestDuration cfg r = tFin := by
    have := congrArg (fun x => match x with
      | Except.ok (p : Outcome × ℚ) => p.2
      | Except.error _ => tFin) hmk
    simpa using this
  constructor
  · intro sref hst hne
    rw [← ho, ← ht]
    simp [mkOutcome, hst, hne]
  · intro hst
    rcases hst with hst | hst
    · rw [← ho, ← ht]
      simp [mkOutcome, hst]
    · rw [← ho, ← ht]
      simp [mkOutcome, hst]

/-- C9 witness: the amended timestamp facts at a concrete request with
reference 3. -/
theorem claim9_witness :
    (∀ sref : ℚ, (some (3 : ℚ)) = some sref → sref ≠ 0 →
      outcRef3.timestamp = 6 - sref) ∧
    (((some (3 : ℚ)) = some 0 ∨ (some (3 : ℚ)) = none) →
      outcRef3.timestamp = 6 - 5) :=
  claim9_timestamp_amended cfgRun behUnit 5 (some 3) outcRef3 6
    (by norm_num [make_request, requestDuration, cfgRun, behUnit, outcRef3])

/-- C10: a json body is attached to the outgoing request only when the
method is POST and json_data is non-empty; every GET request and every
POST without json_data is issued with no body, and headers default to the
empty mapping when none are configured. -/
theorem claim10_request_body (cfg : Config) :
    (cfg.method = Method.GET → (request_kwargs cfg).json = none) ∧
    (cfg.json_data = none → (request_kwargs cfg).json = none) ∧
    (∀ j, cfg.json_data = some j → j.isEmpty = true →
      (request_kwargs cfg).json = none) ∧
    (∀ j, cfg.method = Method.POST → cfg.json_data = some j → j.isEmpty = false →
      (request_kwargs cfg).json = some j) ∧
    (cfg.headers = none → (request_kwargs cfg).headers = []) := by
  refine ⟨?_, ?_, ?_, ?_, ?_⟩
  · intro hm
    cases hj : cfg.json_data with
    | none => simp [request_kwargs, hj]
    | some j => simp [request_kwargs, hj, hm]
  · intro hj
    simp [request_kwargs, hj]
  · intro j hj hempty
    simp [request_kwargs, hj, hempty]
  · intro j hm hj hne
    simp [request_kwargs, hj, hm, hne]
  · intro hh
    simp [request_kwargs, hh]

/-- C10 witness: the kwargs of the GET scenario configuration carry no
body and empty headers. -/
theorem claim10_witness :
    (request_kwargs cfgRun).json = none ∧ (request_kwargs cfgRun).headers = [] :=
  ⟨(claim10_request_body cfgRun).1 rfl, (claim10_request_body cfgRun).2.2.2.2 rfl⟩

end StressLab
